import Mathlib

/-!
Verification of the rex360backend HTTP handlers.

The JavaScript handlers in `src/server.js`, `src/api/index.js.js` and
`src/unnamed/part_000` .. `part_003` are shallowly embedded below.  External
services (the managed database, the object store, the identity service, the
mail transport and the payment gateway) are modelled as explicit oracle
parameters: a handler receives the outcome each upstream call would produce
and the embedding records the side effects the handler performs (mails,
database writes, audit rows) together with the HTTP response.  A response of
`none` models a JavaScript exception escaping the handler (no response is
written by the handler itself).
-/

namespace Rex360

/-! ## A JSON value model

`express.json()` parses the request body into a JavaScript value and the
webhook handler in `src/unnamed/part_001` re-serialises it with
`JSON.stringify`.  The model covers the JSON fragment these handlers
exercise: nulls, booleans, integer numbers, escape-free strings, arrays and
objects.  (Floating point numbers and escape sequences inside strings are
outside the model; no claim depends on them.) -/

inductive Json where
  | null : Json
  | bool (b : Bool) : Json
  | num (n : Int) : Json
  | str (s : String) : Json
  | arr (xs : List Json) : Json
  | obj (fields : List (String × Json)) : Json
deriving Repr

mutual

/-- `JSON.stringify` on the modelled fragment: no added whitespace, object
fields in insertion order, strings quoted verbatim (no escapes occur in the
modelled fragment). -/
def Json.stringify : Json → String
  | .null => "null"
  | .bool true => "true"
  | .bool false => "false"
  | .num n => toString n
  | .str s => "\"" ++ s ++ "\""
  | .arr xs => "[" ++ stringifyElems xs ++ "]"
  | .obj fs => "\x7b" ++ stringifyFields fs ++ "\x7d"

def stringifyElems : List Json → String
  | [] => ""
  | [x] => Json.stringify x
  | x :: y :: xs => Json.stringify x ++ "," ++ stringifyElems (y :: xs)

def stringifyFields : List (String × Json) → String
  | [] => ""
  | [(k, v)] => "\"" ++ k ++ "\":" ++ Json.stringify v
  | (k, v) :: f :: fs =>
      "\"" ++ k ++ "\":" ++ Json.stringify v ++ "," ++ stringifyFields (f :: fs)

end

/-! ## A JSON parser for the same fragment

`express.json()` runs `JSON.parse` on the raw request body.  The parser below
accepts the fragment of JSON described above, plus the whitespace `JSON.parse`
skips between tokens.  It is what connects a raw request body (a `String`) to
the parsed `req.body` the handlers see. -/

def jsonWs (c : Char) : Bool :=
  c == ' ' || c == '\n' || c == '\t' || c == '\r'

def skipWs : List Char → List Char
  | [] => []
  | c :: cs => if jsonWs c then skipWs cs else c :: cs

def digitsToNat (cs : List Char) : Nat :=
  cs.foldl (fun a c => 10 * a + (c.toNat - 48)) 0

def parseNatNum (cs : List Char) : Option (Nat × List Char) :=
  let ds := cs.takeWhile Char.isDigit
  if ds.isEmpty then none else some (digitsToNat ds, cs.drop ds.length)

/-- Parse the body of a string literal after the opening quote; escape
sequences are outside the modelled fragment and rejected. -/
def parseStringBody : List Char → Option (String × List Char)
  | [] => none
  | c :: cs =>
    if c == '"' then some ("", cs)
    else if c == '\\' then none
    else (parseStringBody cs).map (fun p => (String.mk (c :: p.1.data), p.2))

mutual

def parseValue : Nat → List Char → Option (Json × List Char)
  | 0, _ => none
  | fuel + 1, cs =>
    match skipWs cs with
    | [] => none
    | c :: rest =>
      if c == 'n' then
        match rest with
        | 'u' :: 'l' :: 'l' :: r => some (.null, r)
        | _ => none
      else if c == 't' then
        match rest with
        | 'r' :: 'u' :: 'e' :: r => some (.bool true, r)
        | _ => none
      else if c == 'f' then
        match rest with
        | 'a' :: 'l' :: 's' :: 'e' :: r => some (.bool false, r)
        | _ => none
      else if c == '"' then
        (parseStringBody rest).map (fun p => (.str p.1, p.2))
      else if c == '[' then
        match skipWs rest with
        | ']' :: r => some (.arr [], r)
        | r => parseElems fuel r []
      else if c == '\x7b' then
        match skipWs rest with
        | '\x7d' :: r => some (.obj [], r)
        | r => parseFields fuel r []
      else if c == '-' then
        (parseNatNum rest).map (fun p => (.num (-(p.1 : Int)), p.2))
      else if c.isDigit then
        (parseNatNum (c :: rest)).map (fun p => (.num (p.1 : Int), p.2))
      else none

def parseElems : Nat → List Char → List Json → Option (Json × List Char)
  | 0, _, _ => none
  | fuel + 1, cs, acc =>
    match parseValue fuel cs with
    | none => none
    | some (v, r) =>
      match skipWs r with
      | ',' :: r2 => parseElems fuel r2 (acc ++ [v])
      | ']' :: r2 => some (.arr (acc ++ [v]), r2)
      | _ => none

def parseFields : Nat → List Char → List (String × Json) →
    Option (Json × List Char)
  | 0, _, _ => none
  | fuel + 1, cs, acc =>
    match skipWs cs with
    | '"' :: r =>
      match parseStringBody r with
      | none => none
      | some (k, r2) =>
        match skipWs r2 with
        | ':' :: r3 =>
          match parseValue fuel r3 with
          | none => none
          | some (v, r4) =>
            match skipWs r4 with
            | ',' :: r5 => parseFields fuel r5 (acc ++ [(k, v)])
            | '\x7d' :: r5 => some (.obj (acc ++ [(k, v)]), r5)
            | _ => none
        | _ => none
    | _ => none

end

/-- `JSON.parse` on a whole input string: one value, optionally surrounded by
whitespace. -/
def jsonParse (s : String) : Option Json :=
  match parseValue (s.length + 1) s.data with
  | some (v, r) => if (skipWs r).isEmpty then some v else none
  | none => none

/-! ## Amount parsing (POST /api/payments/initialize)

`src/unnamed/part_001` lines 82-84 (and `src/server.js` line 244):

    const cleanAmount = String(amount).replace(/[^0-9]/g, '');
    const amountInKobo = parseInt(cleanAmount) * 100;

`parseInt` on the digit-only `cleanAmount` yields its decimal value, except
on the empty string where it yields `NaN`; `NaN * 100` is `NaN`.  `NaN` is
modelled as `none`. -/

def stripNonDigits (s : String) : String :=
  String.mk (s.data.filter Char.isDigit)

/-- `parseInt` restricted to the digit-only strings produced by
`stripNonDigits` (the only inputs it receives at this call site). -/
def parseIntDigits (s : String) : Option Nat :=
  if s.data.isEmpty then none else some (digitsToNat s.data)

def amountInKobo (amount : String) : Option Nat :=
  (parseIntDigits (stripNonDigits amount)).map (· * 100)

/-! ## JavaScript property access and string coercion

The webhook handler reads `event.data.customer.email` and interpolates values
into template strings.  `jsAccess v k` models `v.k`: reading a property of
`undefined` (here `none`) or of `null` throws a `TypeError` (`Except.error`),
reading a missing property of an object, or any property of a primitive,
yields `undefined` (`none`). -/

def lookupField (fs : List (String × Json)) (k : String) : Option Json :=
  ((fs.reverse).find? (fun p => p.1 == k)).map (·.2)

def jsAccess : Option Json → String → Except Unit (Option Json)
  | none, _ => .error ()
  | some .null, _ => .error ()
  | some (.obj fs), k => .ok (lookupField fs k)
  | some _, _ => .ok none

mutual

/-- JavaScript `String(v)` for a defined value, as used by template literal
interpolation. -/
def jsString : Json → String
  | .null => "null"
  | .bool true => "true"
  | .bool false => "false"
  | .num n => toString n
  | .str s => s
  | .arr xs => jsArrayString xs
  | .obj _ => "[object Object]"

/-- `Array.prototype.toString`: elements joined by commas, `null` elements
rendered empty. -/
def jsArrayString : List Json → String
  | [] => ""
  | [.null] => ""
  | [x] => jsString x
  | .null :: y :: xs => "," ++ jsArrayString (y :: xs)
  | x :: y :: xs => jsString x ++ "," ++ jsArrayString (y :: xs)

end

/-- Template interpolation of a possibly-undefined value. -/
def jsTemplate : Option Json → String
  | none => "undefined"
  | some v => jsString v

/-! ## The Paystack webhook handler (src/unnamed/part_001 lines 102-133)

    app.post('/api/payments/webhook', async (req, res) => {
      const hash = crypto.createHmac('sha512', process.env.PAYSTACK_SECRET_KEY)
                         .update(JSON.stringify(req.body)).digest('hex');
      if (hash !== req.headers['x-paystack-signature']) return res.sendStatus(401);
      const event = req.body;
      if (event.event === 'charge.success') {
        const email = event.data.customer.email;
        const service = event.data.metadata.service_name;
        const ref = event.data.reference;
        ... await transporter.sendMail(mailOptions);
      }
      res.sendStatus(200);
    });

The HMAC-SHA512 primitive itself is kept abstract: the handler is
parameterised over `hmacHex : String → String → String` (secret, message)
and every theorem about the handler holds for all such functions.  The mail
transport is an oracle bit `mailOk`; `sendMail` is not wrapped in any
`try`/`catch`, so a rejected promise escapes the handler (`response = none`).
-/

structure MailMsg where
  recipient : String
  subject : String
  html : String
deriving DecidableEq, Repr

/-- The exact string the handler feeds to the HMAC: `JSON.stringify(req.body)`
(line 104), i.e. the re-serialisation of the parsed body, not the raw request
bytes. -/
def webhookHmacMessage (body : Json) : String :=
  Json.stringify body

/-- The `charge.success` branch: field extraction in source order
(`event.event`, then `event.data.customer.email`,
`event.data.metadata.service_name`, `event.data.reference`).  `Except.error`
models a `TypeError` thrown by a property access on `undefined`/`null`;
`.ok none` means the event is not a `charge.success` event and the branch is
skipped. -/
def webhookExtract (body : Json) : Except Unit (Option (String × String × String)) := do
  let ev ← jsAccess (some body) "event"
  match ev with
  | some (Json.str s) =>
    if s == "charge.success" then do
      let d ← jsAccess (some body) "data"
      let c ← jsAccess d "customer"
      let email ← jsAccess c "email"
      let m ← jsAccess d "metadata"
      let svc ← jsAccess m "service_name"
      let ref ← jsAccess d "reference"
      pure (some (jsTemplate email, jsTemplate svc, jsTemplate ref))
    else pure none
  | _ => pure none

/-- The confirmation mail the webhook sends (the long HTML body is reduced to
the two interpolated fields, reference and service name; its fixed markup is
irrelevant to every claim). -/
def webhookMail (email svc ref : String) : MailMsg :=
  { recipient := email
    subject := "Action Required: Formalize " ++ svc
    html := "Payment Verified. Order Reference: " ++ ref ++
            ". We have successfully received payment for " ++ svc ++
            " registration." }

structure WebhookOutcome where
  /-- HTTP status written by the handler; `none` when an exception escaped. -/
  response : Option Nat
  /-- `sendMail` invocations made. -/
  mailsAttempted : List MailMsg
  /-- `sendMail` invocations that succeeded (mail handed to the transport). -/
  mailsDelivered : List MailMsg
deriving DecidableEq, Repr

def paystackWebhook (hmacHex : String → String → String) (secret : String)
    (mailOk : Bool) (body : Json) (sigHeader : Option String) : WebhookOutcome :=
  let hash := hmacHex secret (webhookHmacMessage body)
  if sigHeader = some hash then
    match webhookExtract body with
    | .error _ => { response := none, mailsAttempted := [], mailsDelivered := [] }
    | .ok none => { response := some 200, mailsAttempted := [], mailsDelivered := [] }
    | .ok (some (email, svc, ref)) =>
      let m := webhookMail email svc ref
      if mailOk then
        { response := some 200, mailsAttempted := [m], mailsDelivered := [m] }
      else
        { response := none, mailsAttempted := [m], mailsDelivered := [] }
  else
    { response := some 401, mailsAttempted := [], mailsDelivered := [] }

/-! ## POST /api/payments/initialize (src/unnamed/part_001 lines 80-100,
src/server.js lines 241-255)

The handler computes `amountInKobo` from the request amount with no
validation and always issues the outbound gateway call, forwarding that
amount (a `none` amount is JavaScript `NaN`).  On a gateway failure the
`catch` responds 500 with a fixed message; on success it relays the gateway
response.  The forwarded payer email, callback URL and metadata are omitted
from the model; no claim mentions them. -/

structure InitOutcome where
  /-- Amounts carried by the outbound gateway calls issued (`none` = `NaN`). -/
  gatewayAmounts : List (Option Nat)
  status : Nat
deriving DecidableEq, Repr

def paymentsInitialize (gatewayOk : Bool) (amount : String) : InitOutcome :=
  let kobo := amountInKobo amount
  { gatewayAmounts := [kobo]
    status := if gatewayOk then 200 else 500 }

/-! ## The verifyAdmin middleware (src/server.js lines 79-91,
src/unnamed/part_000 lines 23-40, part_001 lines 62-76, part_003 lines 62-74)

    const authHeader = req.headers.authorization;
    if (!authHeader) return res.status(401).json({ error: "Access Denied" });
    const token = authHeader.split(' ')[1];
    const { data: { user }, error } = await supabase.auth.getUser(token);
    if (error || !user || user.email !== 'rex360solutions@gmail.com') {
        return res.status(403).json({ error: ... });
    }
    req.user = user; next();

The identity service is an oracle `getUser : Option String → AuthResult`
(argument: the extracted token, `none` when `split` produced no second
part). -/

inductive AuthResult where
  /-- `getUser` resolved the token to a user with this email. -/
  | ok (email : String) : AuthResult
  /-- `getUser` returned an error or no user (invalid or expired token). -/
  | err : AuthResult
  /-- `getUser` threw (network failure); caught by the `catch` → 401. -/
  | threw : AuthResult
deriving DecidableEq, Repr

inductive AdminGate where
  | unauthenticated : AdminGate
  | sessionExpired : AdminGate
  | unauthorized : AdminGate
  | proceed (email : String) : AdminGate
deriving DecidableEq, Repr

def adminEmail : String := "rex360solutions@gmail.com"

def verifyAdmin (getUser : Option String → AuthResult)
    (authHeader : Option String) : AdminGate :=
  match authHeader with
  | none => .unauthenticated
  | some h =>
    match getUser (h.splitOn " ")[1]? with
    | .threw => .sessionExpired
    | .err => .unauthorized
    | .ok email => if email = adminEmail then .proceed email else .unauthorized

/-- An admin-marked route: the middleware runs first and, on failure, responds
before the handler, so the handler (and any mutation it performs, recorded as
the `List String` of its effects) is never reached. -/
def adminRoute (getUser : Option String → AuthResult) (authHeader : Option String)
    (handler : String → Nat × List String) : Nat × List String :=
  match verifyAdmin getUser authHeader with
  | .unauthenticated => (401, [])
  | .sessionExpired => (401, [])
  | .unauthorized => (403, [])
  | .proceed email => handler email

/-! ## Upstream failure responses

POST /api/slides (src/server.js lines 142-151): on a database insert error,
`return res.status(500).json(error)` — the raw upstream error object is the
response body.

POST /api/posts (src/unnamed/part_000 lines 62-82): the `catch` responds
`res.status(500).json({ error: err.message })` — the upstream error message
is placed in the body. -/

structure UpstreamError where
  message : String
deriving DecidableEq, Repr

inductive RespBody where
  /-- `res.json(error)`: the upstream error object serialised as the body. -/
  | rawError (e : UpstreamError) : RespBody
  /-- `res.json({ error: m })`. -/
  | errMessage (m : String) : RespBody
  /-- A success body (`data[0]`, a message object, ...). -/
  | ok : RespBody
deriving DecidableEq, Repr

/-- Does the response body carry the upstream error or its message? -/
def bodyLeaksUpstream (e : UpstreamError) : RespBody → Bool
  | .rawError e2 => e2 == e
  | .errMessage m => m == e.message
  | .ok => false

/-- POST /api/slides (src/server.js lines 142-151), given the outcome of the
`slides` insert.  On success the handler goes on to `logAction` and responds
with the inserted row; the audit entry is included for completeness. -/
def postSlidesHandler (actingAdmin titlePart1 : String)
    (insertRes : Except UpstreamError Unit) :
    Nat × RespBody × List (String × String × String) :=
  match insertRes with
  | .error e => (500, .rawError e, [])
  | .ok _ =>
    (200, .ok, [(actingAdmin, "SLIDE_ADD", "Added kinetic slide: " ++ titlePart1)])

/-- POST /api/posts (src/unnamed/part_000 lines 62-82), given the outcomes of
`uploadToSupabase` (used only when a file is attached) and of the `posts`
insert; any thrown upstream error reaches the `catch`, which echoes
`err.message`. -/
def postPostsHandler (hasFile : Bool) (uploadRes : Except UpstreamError String)
    (insertRes : Except UpstreamError Unit) : Nat × RespBody :=
  match (do
      let _mediaUrl ← if hasFile then uploadRes.map some else pure none
      insertRes) with
  | .error e => (500, .errMessage e.message)
  | .ok _ => (200, .ok)

/-! ## Media upload (src/unnamed/part_000 lines 42-49, src/server.js lines
115-132) -/

/-- Public URL of a stored object, keyed by the object store bucket layout;
the URL prefix is supplied by the hosted store and is opaque to the server. -/
def publicUrlFor (key : String) : String :=
  "https://storage.example/object/public/uploads/" ++ key

/-- Filename sanitisation from src/unnamed/part_000 line 43:
`file.originalname.replace(/[^a-zA-Z0-9.]/g, '_')`. -/
def sanitizeName (name : String) : String :=
  String.mk (name.data.map (fun c =>
    if ('a' ≤ c && c ≤ 'z') || ('A' ≤ c && c ≤ 'Z') || c.isDigit || c == '.'
    then c else '_'))

/-- `uploadToSupabase` (src/unnamed/part_000 lines 42-49): store the buffer
under a timestamp-prefixed sanitised name and return only the original public
URL.  `storeOk` is the object store oracle; a store error is thrown. -/
def uploadToSupabase (storeOk : Bool) (timestamp : Nat) (origName : String) :
    Except Unit String :=
  if storeOk then .ok (publicUrlFor (toString timestamp ++ "_" ++ sanitizeName origName))
  else .error ()

structure MediaUploadResult where
  original : String
  /-- Width-keyed derivative pairs: (width, standard-encoding URL,
  modern-encoding URL). -/
  derivatives : List (Nat × String × String)
  /-- Inline low-quality placeholder data URI. -/
  placeholder : Option String
deriving DecidableEq, Repr

def derivativeWidths : List Nat := [320, 640, 1280]

/-- JavaScript `mimetype.startsWith('image')`. -/
def isImageMime (m : String) : Bool := m.data.take 5 == "image".data

/-- URL of one resized derivative, its name deterministically encoding the
upload timestamp and target width. -/
def derivativeUrl (timestamp width : Nat) (ext : String) : String :=
  publicUrlFor (toString timestamp ++ "_w" ++ toString width ++ "." ++ ext)

/-- Modelled from the spec: the derivative-generation step of the Media Relay
(spec section 4.4).  The repository variant that resizes images is not among
the files under src/ (the files there return only the original URL), so this
step follows the words of the spec: for image content types, when variant
generation is enabled, produce the fixed width ladder 320/640/1280 in a lossy
standard encoding and a modern compressed encoding, plus one inline
base64 JPEG placeholder; otherwise produce only the original URL. -/
def uploadMedia (variantsEnabled : Bool) (mimetype : String) (origUrl : String)
    (timestamp : Nat) (lqip : String) : MediaUploadResult :=
  if isImageMime mimetype && variantsEnabled then
    { original := origUrl
      derivatives := derivativeWidths.map (fun w =>
        (w, derivativeUrl timestamp w "jpg", derivativeUrl timestamp w "webp"))
      placeholder := some ("data:image/jpeg;base64," ++ lqip) }
  else
    { original := origUrl, derivatives := [], placeholder := none }

/-- The upload endpoint: store the original (throwing on a store error), then
derive variants per `uploadMedia`. -/
def handleUpload (variantsEnabled storeOk : Bool) (mimetype origName : String)
    (timestamp : Nat) (lqip : String) : Except Unit MediaUploadResult :=
  match uploadToSupabase storeOk timestamp origName with
  | .error e => .error e
  | .ok url => .ok (uploadMedia variantsEnabled mimetype url timestamp lqip)

/-! ## PUT /api/applications/:id/status (src/server.js lines 192-213,
src/unnamed/part_003 lines 135-154)

    const { data, error } = await supabase.from('applications')
        .update({ status }).eq('id', id).select();
    if (status === 'completed' && !error) {
        await transporter.sendMail({ ..., to: email,
            subject: `✅ Registration Certified: ${businessName}`, ... });
    }
    await logAction(req.user.email, 'STATUS_UPDATE', `${businessName} moved to ${status}`);
    res.json({ success: true, data: data[0] });

`sendMail` is not guarded: in src/server.js a rejected `sendMail` escapes the
handler before `logAction` runs; in src/unnamed/part_003 the surrounding
`catch` responds 500, likewise before its `logAction`.  Either way a mail
failure skips the audit append.  When the update itself errored the handler
still logs, then (src/server.js) crashes on `data[0]` since `data` is null. -/

structure AuditEntry where
  adminEmail : String
  action : String
  details : String
deriving DecidableEq, Repr

structure StatusUpdateOutcome where
  response : Option Nat
  /-- `(id, status)` rows written by the update. -/
  statusWrites : List (String × String)
  mailsAttempted : List MailMsg
  mailsDelivered : List MailMsg
  audits : List AuditEntry
deriving DecidableEq, Repr

def certifiedMail (email businessName : String) : MailMsg :=
  { recipient := email
    subject := "✅ Registration Certified: " ++ businessName
    html := "Certification Complete. Your entity " ++ businessName ++
            " has been successfully registered." }

def statusAudit (actingAdmin businessName status : String) : AuditEntry :=
  { adminEmail := actingAdmin
    action := "STATUS_UPDATE"
    details := businessName ++ " moved to " ++ status }

def updateApplicationStatus (dbOk mailOk : Bool)
    (actingAdmin id status email businessName : String) : StatusUpdateOutcome :=
  let writes := if dbOk then [(id, status)] else []
  if status == "completed" && dbOk then
    let m := certifiedMail email businessName
    if mailOk then
      { response := some 200, statusWrites := writes
        mailsAttempted := [m], mailsDelivered := [m]
        audits := [statusAudit actingAdmin businessName status] }
    else
      { response := none, statusWrites := writes
        mailsAttempted := [m], mailsDelivered := []
        audits := [] }
  else
    { response := if dbOk then some 200 else none
      statusWrites := writes
      mailsAttempted := [], mailsDelivered := []
      audits := [statusAudit actingAdmin businessName status] }

/-! ## GET /api/track (src/unnamed/part_003 lines 193-208)

    const { data, error } = await supabase.from('applications').select('*')
        .or(`email.eq.${query},payment_ref.eq.${query}`).single();
    if (error || !data) return res.status(404).json({ error: "No filing found" });
    res.json(data);

`.single()` yields the row when the filter matches exactly one row and an
error otherwise (zero rows or several rows). -/

structure AppRecord where
  id : Nat
  email : String
  paymentRef : String
deriving DecidableEq, Repr

def trackMatches (apps : List AppRecord) (query : String) : List AppRecord :=
  apps.filter (fun a => a.email == query || a.paymentRef == query)

def trackHandler (apps : List AppRecord) (query : String) : Nat × Option AppRecord :=
  match trackMatches apps query with
  | [a] => (200, some a)
  | _ => (404, none)

/-! ## Concrete values used by counterexamples and witnesses -/

/-- A well-formed verified `charge.success` event body. -/
def chargeSuccessBody : Json :=
  .obj [("event", .str "charge.success"),
        ("data", .obj [("customer", .obj [("email", .str "ada@acme.com")]),
                       ("metadata", .obj [("service_name", .str "CAC Registration")]),
                       ("reference", .str "ref_001")])]

/-- Identity service oracle that rejects every token. -/
def guErr : Option String → AuthResult := fun _ => .err

/-- Identity service oracle resolving every token to the administrator. -/
def guAdmin : Option String → AuthResult := fun _ => .ok adminEmail

/-- Identity service oracle resolving every token to a non-admin user. -/
def guOther : Option String → AuthResult := fun _ => .ok "intruder@example.com"

/-- A route handler that performs a mutation and reports who triggered it. -/
def hEcho : String → Nat × List String := fun e => (200, ["mutation by " ++ e])

/-! # Theorems -/

/-- Claim C1, counterexample to the claim as stated.  The handler does not
hash the exact raw request body: it hashes `JSON.stringify(req.body)`
(src/unnamed/part_001 line 104).  For the raw body consisting of a brace,
a space and a closing brace — which `express.json()` parses to the empty
object — the string fed to the HMAC is the two-character canonical form and
differs from the raw body, so the recomputed digest is not a digest of the
raw bytes. -/
theorem webhook_hmac_input_differs_from_raw_body :
    jsonParse "\x7b \x7d" = some (Json.obj []) ∧
    webhookHmacMessage (Json.obj []) ≠ "\x7b \x7d" :=
  ⟨rfl, by decide⟩

/-- Claim C1, amended: for every inbound webhook request, the handler
recomputes an HMAC-SHA512 digest of the JSON re-serialisation of the parsed
request body (not of the raw request bytes) keyed by the server-held secret;
if that digest does not equal the value of the x-paystack-signature header,
the handler responds 401 and performs zero side effects (no email is sent,
and the handler touches no other state). -/
theorem webhook_signature_mismatch_401_no_effects
    (hmacHex : String → String → String) (secret : String) (mailOk : Bool)
    (body : Json) (sigHeader : Option String)
    (h : sigHeader ≠ some (hmacHex secret (webhookHmacMessage body))) :
    paystackWebhook hmacHex secret mailOk body sigHeader =
      { response := some 401, mailsAttempted := [], mailsDelivered := [] } := by
  simp [paystackWebhook, h]

/-- Claim C1, witness for the amended theorem at a concrete request with a
missing signature header. -/
theorem webhook_signature_mismatch_401_no_effects_witness :
    paystackWebhook (fun _ _ => "digest") "sk" true (Json.obj []) none =
      { response := some 401, mailsAttempted := [], mailsDelivered := [] } :=
  webhook_signature_mismatch_401_no_effects (fun _ _ => "digest") "sk" true
    (Json.obj []) none (by decide)

/-- Claim C2, counterexample.  On a verified `charge.success` event whose
confirmation mail dispatch fails, the handler does not respond 200: the
`sendMail` rejection is not caught (src/unnamed/part_001 lines 108-132 have
no try/catch), so the exception escapes before `res.sendStatus(200)` and
nothing is logged.  The signature here verifies by construction (the digest
function is instantiated and the header carries exactly the recomputed
digest). -/
theorem webhook_mail_failure_not_200 :
    paystackWebhook (fun _ m => m) "sk" false chargeSuccessBody
        (some (webhookHmacMessage chargeSuccessBody)) =
      { response := none,
        mailsAttempted := [webhookMail "ada@acme.com" "CAC Registration" "ref_001"],
        mailsDelivered := [] } := by
  rfl

/-- Claim C2, amended: for every webhook request whose signature verifies,
the handler responds 200 OK after processing provided its side effects
succeed — that is, when the event is not a `charge.success` event, or the
confirmation mail dispatch succeeds.  A failing side effect is neither
caught nor logged: it aborts the handler and no 200 is sent. -/
theorem webhook_verified_200_when_effects_succeed
    (hmacHex : String → String → String) (secret : String) (mailOk : Bool)
    (body : Json) (sigHeader : Option String)
    (r : Option (String × String × String))
    (hsig : sigHeader = some (hmacHex secret (webhookHmacMessage body)))
    (hex : webhookExtract body = .ok r)
    (hok : mailOk = true ∨ r = none) :
    (paystackWebhook hmacHex secret mailOk body sigHeader).response = some 200 := by
  subst hsig
  rcases hok with h | h
  · subst h
    rcases r with _ | ⟨e, s, f⟩ <;> simp [paystackWebhook, hex]
  · subst h
    simp [paystackWebhook, hex]

/-- Claim C2, witness for the amended theorem at the concrete verified
`charge.success` event with a working mail transport. -/
theorem webhook_verified_200_when_effects_succeed_witness :
    (paystackWebhook (fun _ m => m) "sk" true chargeSuccessBody
      (some (webhookHmacMessage chargeSuccessBody))).response = some 200 :=
  webhook_verified_200_when_effects_succeed (fun _ m => m) "sk" true
    chargeSuccessBody (some (webhookHmacMessage chargeSuccessBody))
    (some ("ada@acme.com", "CAC Registration", "ref_001")) rfl rfl (Or.inl rfl)

/-- Claim C3, counterexample.  The handler keys no dedupe check on the
transaction reference (src/unnamed/part_001 lines 102-133 consult no stored
state at all): delivering the same verified `charge.success` event twice
sends two confirmation emails, not at most one, so the second delivery is
not a no-op with respect to side effects. -/
theorem webhook_replay_sends_two_mails :
    ((paystackWebhook (fun _ m => m) "sk" true chargeSuccessBody
        (some (webhookHmacMessage chargeSuccessBody))).mailsDelivered ++
     (paystackWebhook (fun _ m => m) "sk" true chargeSuccessBody
        (some (webhookHmacMessage chargeSuccessBody))).mailsDelivered).length = 2 := by
  rfl

/-- Claim C3, amended: every delivery of a verified `charge.success` event
sends exactly one confirmation email — the handler is stateless, performs no
deduplication on the transaction reference, and so n deliveries of the same
event send n emails.  (The handler updates no application record, so status
transitions stay at zero for any number of deliveries.) -/
theorem webhook_each_delivery_sends_one_mail
    (hmacHex : String → String → String) (secret : String) (body : Json)
    (sigHeader : Option String) (email svc pref : String)
    (hsig : sigHeader = some (hmacHex secret (webhookHmacMessage body)))
    (hex : webhookExtract body = .ok (some (email, svc, pref))) :
    (paystackWebhook hmacHex secret true body sigHeader).mailsDelivered =
      [webhookMail email svc pref] := by
  subst hsig
  simp [paystackWebhook, hex]

/-- Claim C3, witness for the amended theorem at the concrete verified
event. -/
theorem webhook_each_delivery_sends_one_mail_witness :
    (paystackWebhook (fun _ m => m) "sk" true chargeSuccessBody
      (some (webhookHmacMessage chargeSuccessBody))).mailsDelivered =
      [webhookMail "ada@acme.com" "CAC Registration" "ref_001"] :=
  webhook_each_delivery_sends_one_mail (fun _ m => m) "sk" chargeSuccessBody
    (some (webhookHmacMessage chargeSuccessBody))
    "ada@acme.com" "CAC Registration" "ref_001" rfl rfl

/-- Claim C4: the payment initializer strips all non-digit characters from
the string form of the amount, parses the remainder as an integer, and
multiplies by 100 to obtain the minor-currency amount sent to the gateway;
in particular the naira-formatted amount string yields exactly 1250000. -/
theorem initialize_amount_minor_units :
    amountInKobo "₦12,500" = some 1250000 ∧
    ∀ s : String, s.data.any Char.isDigit →
      amountInKobo s = some (digitsToNat (s.data.filter Char.isDigit) * 100) := by
  refine ⟨by decide, ?_⟩
  intro s h
  have hne : (s.data.filter Char.isDigit).isEmpty = false := by
    rcases List.any_eq_true.mp h with ⟨c, hc, hd⟩
    have hmem : c ∈ s.data.filter Char.isDigit := List.mem_filter.mpr ⟨hc, hd⟩
    rcases hf : s.data.filter Char.isDigit with _ | ⟨a, t⟩
    · rw [hf] at hmem; simp at hmem
    · rfl
  simp [amountInKobo, parseIntDigits, stripNonDigits, hne]

/-- Claim C4, witness: a mixed alphanumeric amount keeps only its digits. -/
theorem initialize_amount_minor_units_witness :
    amountInKobo "x5y" = some (digitsToNat ("x5y".data.filter Char.isDigit) * 100) :=
  initialize_amount_minor_units.2 "x5y" (by decide)

/-- Claim C9: for every payment-initialization request whose amount contains
no digit character at all, the handler performs no validation rejection: the
computed minor-unit amount is NaN (modelled `none`, from `parseInt` of the
empty string) and the outbound gateway call is still issued carrying that
amount; the response status is never a 400 validation error. -/
theorem initialize_no_digits_sends_nan (gatewayOk : Bool) (s : String)
    (h : s.data.all (fun c => !c.isDigit)) :
    (paymentsInitialize gatewayOk s).gatewayAmounts = [none] ∧
    (paymentsInitialize gatewayOk s).status ≠ 400 := by
  have hf : s.data.filter Char.isDigit = [] := by
    rw [List.filter_eq_nil_iff]
    intro c hc
    have := List.all_eq_true.mp h c hc
    simpa using this
  constructor
  · simp [paymentsInitialize, amountInKobo, parseIntDigits, stripNonDigits, hf]
  · cases gatewayOk <;> simp [paymentsInitialize]

/-- Claim C9, witness at the pure-text amount. -/
theorem initialize_no_digits_sends_nan_witness :
    (paymentsInitialize true "free").gatewayAmounts = [none] ∧
    (paymentsInitialize true "free").status ≠ 400 :=
  initialize_no_digits_sends_nan true "free" (by decide)

/-- Claim C5: for every admin-marked route, a request with no token fails
with 401; a request whose token the identity service rejects (invalid or
expired), or resolves to any identity other than the allow-listed
administrator email, fails with 403; every failure case reaches no handler
code and performs no mutation; and a token resolving to the allow-listed
email proceeds to the handler. -/
theorem verifyAdmin_gate_behavior
    (getUser : Option String → AuthResult) (authHeader : Option String)
    (handler : String → Nat × List String) :
    (authHeader = none → adminRoute getUser authHeader handler = (401, [])) ∧
    (∀ h, authHeader = some h → getUser (h.splitOn " ")[1]? = .err →
      adminRoute getUser authHeader handler = (403, [])) ∧
    (∀ h e, authHeader = some h → getUser (h.splitOn " ")[1]? = .ok e →
      e ≠ adminEmail → adminRoute getUser authHeader handler = (403, [])) ∧
    (∀ h, authHeader = some h → getUser (h.splitOn " ")[1]? = .ok adminEmail →
      adminRoute getUser authHeader handler = handler adminEmail) := by
  refine ⟨?_, ?_, ?_, ?_⟩
  · intro hn; subst hn; rfl
  · intro h hh hg; subst hh; simp [adminRoute, verifyAdmin, hg]
  · intro h e hh hg hne; subst hh; simp [adminRoute, verifyAdmin, hg, hne]
  · intro h hh hg; subst hh; simp [adminRoute, verifyAdmin, hg]

/-- Claim C5, witness: concrete identity oracles exercising the four gate
outcomes (no token, rejected token, wrong identity, allow-listed admin). -/
theorem verifyAdmin_gate_behavior_witness :
    adminRoute guErr none hEcho = (401, []) ∧
    adminRoute guErr (some "Bearer tok") hEcho = (403, []) ∧
    adminRoute guOther (some "Bearer tok") hEcho = (403, []) ∧
    adminRoute guAdmin (some "Bearer tok") hEcho = hEcho adminEmail :=
  ⟨(verifyAdmin_gate_behavior guErr none hEcho).1 rfl,
   (verifyAdmin_gate_behavior guErr (some "Bearer tok") hEcho).2.1 "Bearer tok" rfl rfl,
   (verifyAdmin_gate_behavior guOther (some "Bearer tok") hEcho).2.2.1 "Bearer tok"
     "intruder@example.com" rfl rfl (by decide),
   (verifyAdmin_gate_behavior guAdmin (some "Bearer tok") hEcho).2.2.2 "Bearer tok" rfl rfl⟩

/-- Claim C6, counterexample.  The cited handlers do respond 500 on an
upstream failure, but the body is not generic: POST /api/slides
(src/server.js line 148) returns the raw upstream error object as the body,
and POST /api/posts (src/unnamed/part_000 line 80) returns the upstream
error message verbatim — both leak upstream error details to the client. -/
theorem upstream_error_leaked_in_body :
    (postSlidesHandler adminEmail "Hero"
        (Except.error ⟨"connect ECONNREFUSED db.internal:5432"⟩)).1 = 500 ∧
    bodyLeaksUpstream ⟨"connect ECONNREFUSED db.internal:5432"⟩
      (postSlidesHandler adminEmail "Hero"
        (Except.error ⟨"connect ECONNREFUSED db.internal:5432"⟩)).2.1 = true ∧
    bodyLeaksUpstream ⟨"connect ECONNREFUSED db.internal:5432"⟩
      (postPostsHandler true
        (Except.error ⟨"connect ECONNREFUSED db.internal:5432"⟩)
        (Except.ok ())).2 = true := by
  decide

/-- Claim C6, amended: when an upstream call fails, the cited handlers
respond 500, but the JSON error body carries the upstream error rather than
a generic message — POST /api/slides returns the raw error object and
POST /api/posts returns a body containing the upstream error message,
whether the failing upstream call is the storage upload or the database
insert. -/
theorem upstream_failure_500_with_error_payload (e : UpstreamError)
    (admin title upUrl : String) (ins : Except UpstreamError Unit) :
    postSlidesHandler admin title (Except.error e) = (500, .rawError e, []) ∧
    postPostsHandler true (Except.error e) ins = (500, .errMessage e.message) ∧
    postPostsHandler false (Except.ok upUrl) (Except.error e) =
      (500, .errMessage e.message) :=
  ⟨rfl, rfl, rfl⟩

/-- Claim C7 (the variant-generation step is modelled from the spec, its
code being absent from src/): uploading an image file through the upload
endpoint with variant generation enabled produces the stored original URL,
exactly three width-keyed derivative URL pairs at widths 320, 640 and 1280
(a standard and a modern encoding each), and one inline placeholder string
beginning with the base64 JPEG data URI prefix; uploading a non-image file
produces only the original URL. -/
theorem upload_image_variants_shape (storeOk : Bool)
    (mimetype origName lqip : String) (timestamp : Nat)
    (hstore : storeOk = true) :
    (isImageMime mimetype = true →
      ∃ res, handleUpload true storeOk mimetype origName timestamp lqip = .ok res ∧
        res.derivatives.map Prod.fst = [320, 640, 1280] ∧
        res.placeholder = some ("data:image/jpeg;base64," ++ lqip)) ∧
    (isImageMime mimetype = false →
      handleUpload true storeOk mimetype origName timestamp lqip =
        .ok { original := publicUrlFor (toString timestamp ++ "_" ++ sanitizeName origName)
              derivatives := []
              placeholder := none }) := by
  subst hstore
  constructor
  · intro him
    refine ⟨_, rfl, ?_, ?_⟩ <;>
      simp [handleUpload, uploadToSupabase, uploadMedia, him, derivativeWidths]
  · intro him
    simp [handleUpload, uploadToSupabase, uploadMedia, him]

/-- Claim C7, witness: a JPEG upload and a video upload at concrete
inputs. -/
theorem upload_image_variants_shape_witness :
    (∃ res, handleUpload true true "image/jpeg" "photo.jpg" 5 "AAAA" = .ok res ∧
      res.derivatives.map Prod.fst = [320, 640, 1280] ∧
      res.placeholder = some ("data:image/jpeg;base64," ++ "AAAA")) ∧
    handleUpload true true "video/mp4" "v.mp4" 5 "AAAA" =
      .ok { original := publicUrlFor (toString 5 ++ "_" ++ sanitizeName "v.mp4")
            derivatives := []
            placeholder := none } :=
  ⟨(upload_image_variants_shape true "image/jpeg" "photo.jpg" "AAAA" 5 rfl).1 (by decide),
   (upload_image_variants_shape true "video/mp4" "v.mp4" "AAAA" 5 rfl).2 (by decide)⟩

/-- Claim C8, counterexample.  An authorized request that sets the status to
completed but whose confirmation mail dispatch fails appends no audit-log
record at all: the `sendMail` rejection aborts the handler (src/server.js
lines 198-209 have no guard around `sendMail`; in src/unnamed/part_003 the
`catch` fires) before `logAction` runs, so the count of audit appends is
zero, not exactly one. -/
theorem status_completed_mail_failure_skips_audit :
    (updateApplicationStatus true false adminEmail "17" "completed"
        "ada@acme.com" "Acme Ltd").audits = [] ∧
    (updateApplicationStatus true false adminEmail "17" "completed"
        "ada@acme.com" "Acme Ltd").mailsAttempted.length = 1 := by
  decide

/-- Claim C8, amended: an authorized request that sets the status to
completed attempts exactly one outbound email to the applicant address;
when the dispatch succeeds the handler appends exactly one audit-log record
attributed to the acting administrator, and when the dispatch fails it
aborts before logging, appending none.  Setting any other status value
sends no completion email (and appends one audit record). -/
theorem status_update_effect_counts (dbOk mailOk : Bool)
    (admin appId status email businessName : String) :
    (status = "completed" → dbOk = true → mailOk = true →
      updateApplicationStatus dbOk mailOk admin appId status email businessName =
        { response := some 200, statusWrites := [(appId, status)]
          mailsAttempted := [certifiedMail email businessName]
          mailsDelivered := [certifiedMail email businessName]
          audits := [statusAudit admin businessName status] }) ∧
    (status = "completed" → dbOk = true → mailOk = false →
      updateApplicationStatus dbOk mailOk admin appId status email businessName =
        { response := none, statusWrites := [(appId, status)]
          mailsAttempted := [certifiedMail email businessName]
          mailsDelivered := []
          audits := [] }) ∧
    (status ≠ "completed" →
      (updateApplicationStatus dbOk mailOk admin appId status email businessName).mailsAttempted = [] ∧
      (updateApplicationStatus dbOk mailOk admin appId status email businessName).audits =
        [statusAudit admin businessName status]) := by
  refine ⟨?_, ?_, ?_⟩
  · intro hs hdb hm; subst hs; subst hdb; subst hm
    simp [updateApplicationStatus]
  · intro hs hdb hm; subst hs; subst hdb; subst hm
    simp [updateApplicationStatus]
  · intro hs
    have hb : (status == "completed") = false := beq_eq_false_iff_ne.mpr hs
    constructor <;> simp [updateApplicationStatus, hb]

/-- Claim C8, witness: the three branches of the amended theorem at concrete
inputs (mail success, mail failure, non-completed status). -/
theorem status_update_effect_counts_witness :
    updateApplicationStatus true true adminEmail "17" "completed" "ada@acme.com" "Acme Ltd" =
      { response := some 200, statusWrites := [("17", "completed")]
        mailsAttempted := [certifiedMail "ada@acme.com" "Acme Ltd"]
        mailsDelivered := [certifiedMail "ada@acme.com" "Acme Ltd"]
        audits := [statusAudit adminEmail "Acme Ltd" "completed"] } ∧
    updateApplicationStatus true false adminEmail "17" "completed" "ada@acme.com" "Acme Ltd" =
      { response := none, statusWrites := [("17", "completed")]
        mailsAttempted := [certifiedMail "ada@acme.com" "Acme Ltd"]
        mailsDelivered := []
        audits := [] } ∧
    (updateApplicationStatus true true adminEmail "17" "pending" "ada@acme.com" "Acme Ltd").mailsAttempted = [] ∧
    (updateApplicationStatus true true adminEmail "17" "pending" "ada@acme.com" "Acme Ltd").audits =
      [statusAudit adminEmail "Acme Ltd" "pending"] :=
  ⟨(status_update_effect_counts true true adminEmail "17" "completed"
      "ada@acme.com" "Acme Ltd").1 rfl rfl rfl,
   (status_update_effect_counts true false adminEmail "17" "completed"
      "ada@acme.com" "Acme Ltd").2.1 rfl rfl rfl,
   (status_update_effect_counts true true adminEmail "17" "pending"
      "ada@acme.com" "Acme Ltd").2.2 (by decide)⟩

/-- Claim C10: the tracking endpoint returns the application record whose
email or payment_ref exactly equals the query value only when exactly one
such record exists; when zero records match, and also when more than one
record matches, it responds 404 and returns no record. -/
theorem track_unique_match_only (apps : List AppRecord) (query : String) :
    (∀ a, trackMatches apps query = [a] →
      trackHandler apps query = (200, some a) ∧
        (a.email = query ∨ a.paymentRef = query)) ∧
    ((trackMatches apps query).length ≠ 1 →
      trackHandler apps query = (404, none)) := by
  constructor
  · intro a hm
    constructor
    · simp [trackHandler, hm]
    · have ha : a ∈ trackMatches apps query := by
        rw [hm]; exact List.mem_singleton_self a
      have hmem := List.of_mem_filter ha
      simpa using hmem
  · intro hlen
    unfold trackHandler
    rcases hm : trackMatches apps query with _ | ⟨a, _ | ⟨b, t⟩⟩
    · rfl
    · exact absurd (by rw [hm]; rfl) hlen
    · rfl

/-- Claim C10, witness: a two-record store where one query is ambiguous (two
records share the payment reference) and another uniquely matches. -/
theorem track_unique_match_only_witness :
    trackHandler [⟨1, "a@b.c", "r1"⟩, ⟨2, "x@y.z", "r1"⟩] "r1" = (404, none) ∧
    trackHandler [⟨1, "a@b.c", "r1"⟩, ⟨2, "x@y.z", "r1"⟩] "a@b.c" =
      (200, some ⟨1, "a@b.c", "r1"⟩) ∧
    trackHandler [⟨1, "a@b.c", "r1"⟩, ⟨2, "x@y.z", "r1"⟩] "nobody" = (404, none) :=
  ⟨(track_unique_match_only [⟨1, "a@b.c", "r1"⟩, ⟨2, "x@y.z", "r1"⟩] "r1").2 (by decide),
   ((track_unique_match_only [⟨1, "a@b.c", "r1"⟩, ⟨2, "x@y.z", "r1"⟩] "a@b.c").1
      ⟨1, "a@b.c", "r1"⟩ (by decide)).1,
   (track_unique_match_only [⟨1, "a@b.c", "r1"⟩, ⟨2, "x@y.z", "r1"⟩] "nobody").2 (by decide)⟩

end Rex360
